import Mathlib

/-!
# The C binding of the analysis library: verifier actions and alias queries

A shallow embedding of `llvm/lib/Analysis/Analysis.cpp` (with the enum of
`llvm/include/llvm-c/Analysis.h`).

* The contents of a `std::string` or of an output stream are a list of
  characters (`Text`); a stream is append-only.
* The process-level stream `errs()` is threaded through every call as an
  explicit argument and comes back in the outcome.
* The IR verifier, the IR accessors, the analyses and the alias strategies are
  library code outside this file; they are parameters of the embedding
  (`Verifier`, `IRBoundary`).
* A call ends in one of three ways (`Outcome`): it returns, it reaches
  `report_fatal_error`, or it dereferences a null pointer.
-/

namespace LLVMAnalysis

/-! ## Text, streams and outcomes -/

/-- The bytes held by a `std::string` or written to a `raw_ostream`, one
character per `char`. -/
abbrev Text := List Char

/-- The terminator of a C string. -/
def NUL : Char := Char.ofNat 0

/-- What `strdup(S.c_str())` hands out for a `std::string` holding `S`: `c_str()`
points at the bytes of `S` followed by a terminator, and `strdup` copies up to
the first terminator it meets. (Allocation failure is not modelled.) -/
def strdup_c_str (S : Text) : Text :=
  S.takeWhile (fun c => c != NUL)

/-- The three values of `LLVMVerifierFailureAction`, in declaration order. -/
inductive LLVMVerifierFailureAction where
  | LLVMAbortProcessAction
  | LLVMPrintMessageAction
  | LLVMReturnStatusAction
  deriving DecidableEq, Repr

open LLVMVerifierFailureAction

/-- How a call of the binding ends. `errs` is the content of the process-level
error stream at that point.
* `returned v errs`: the call returns `v` to its caller;
* `fatal reason errs`: the call reached `report_fatal_error(reason)`, which does
  not return;
* `nullDeref errs`: the call dereferenced a null pointer (no defined result). -/
inductive Outcome (α : Type) where
  | returned (value : α) (errs : Text)
  | fatal (reason : String) (errs : Text)
  | nullDeref (errs : Text)
  deriving DecidableEq, Repr

/-- The content of the process-level error stream when the call ended. -/
def Outcome.stream {α : Type} : Outcome α → Text
  | .returned _ e => e
  | .fatal _ e => e
  | .nullDeref e => e

/-- Whether the call ended in `report_fatal_error`. -/
def Outcome.terminated {α : Type} : Outcome α → Bool
  | .fatal _ _ => true
  | _ => false

/-- The value handed back to the caller, when the call returned. -/
def Outcome.value? {α : Type} : Outcome α → Option α
  | .returned v _ => some v
  | _ => none

/-! ## The verifier binding -/

/-- Modelled from the spec: the validator (`verifyModule` / `verifyFunction` of
the IR library) is not among the sources. The spec has it yield, for an input,
a boolean `isBroken` and a diagnostic text; neither depends on the stream the
text is sent to. -/
structure Verifier (α : Type) where
  isBroken : α → Bool
  diagnostics : α → Text

/-- The streams a `raw_ostream *` of `LLVMVerifyModule` can point at. -/
inductive StreamRef where
  | MsgsOS
  | errs
  deriving DecidableEq, Repr

/-- The two stream contents a call of `LLVMVerifyModule` works on: the local
string `Messages` behind `MsgsOS`, and `errs()`. -/
structure Streams where
  Messages : Text
  errs : Text
  deriving DecidableEq, Repr

/-- Appending to the stream behind a `raw_ostream *`; nothing for `nullptr`. -/
def Streams.write (s : Streams) (OS : Option StreamRef) (t : Text) : Streams :=
  match OS with
  | none => s
  | some StreamRef.MsgsOS => { s with Messages := s.Messages ++ t }
  | some StreamRef.errs => { s with errs := s.errs ++ t }

/-- Modelled from the spec: the call `verifyModule(M, OS)` (also
`verifyFunction(F, OS)`), whose body is not among the sources: it returns the
flag, and appends the diagnostic text to `OS` when `OS` is not null. -/
def runVerifier {α : Type} (V : Verifier α) (x : α) (OS : Option StreamRef)
    (s : Streams) : Bool × Streams :=
  (V.isBroken x, s.write OS (V.diagnostics x))

/-- `LLVMVerifyModule(M, Action, OutMessages)`. `OutMessages` tells whether the
caller passed a non-null `char **`; the returned pair is `Result` and the string
stored into `*OutMessages` (`none` when nothing was stored). `errs0` is the
content of `errs()` before the call. -/
def LLVMVerifyModule {Module : Type} (V : Verifier Module) (M : Module)
    (Action : LLVMVerifierFailureAction) (OutMessages : Bool) (errs0 : Text) :
    Outcome (Bool × Option Text) :=
  let DebugOS : Option StreamRef :=
    if Action ≠ LLVMReturnStatusAction then some StreamRef.errs else none
  let s0 : Streams := { Messages := [], errs := errs0 }
  let r := runVerifier V M (if OutMessages then some StreamRef.MsgsOS else DebugOS) s0
  let Result := r.1
  let s1 := r.2
  -- Duplicate the output to stderr.
  let s2 := if DebugOS.isSome && OutMessages then s1.write DebugOS s1.Messages else s1
  if Action = LLVMAbortProcessAction && Result then
    Outcome.fatal "Broken module found, compilation aborted!" s2.errs
  else
    Outcome.returned
      (Result, if OutMessages then some (strdup_c_str s2.Messages) else none) s2.errs

/-- `LLVMVerifyFunction(Fn, Action)`. -/
def LLVMVerifyFunction {Function : Type} (V : Verifier Function) (Fn : Function)
    (Action : LLVMVerifierFailureAction) (errs0 : Text) : Outcome Bool :=
  let s0 : Streams := { Messages := [], errs := errs0 }
  let r := runVerifier V Fn
    (if Action ≠ LLVMReturnStatusAction then some StreamRef.errs else none) s0
  let Result := r.1
  if Action = LLVMAbortProcessAction && Result then
    Outcome.fatal "Broken function found, compilation aborted!" r.2.errs
  else
    Outcome.returned Result r.2.errs

/-- A well-formed input: the validator reports not broken and emits no text. -/
def WellFormed {α : Type} (V : Verifier α) (x : α) : Prop :=
  V.isBroken x = false ∧ V.diagnostics x = []

/-- A malformed input: the validator reports broken and emits some text. -/
def Malformed {α : Type} (V : Verifier α) (x : α) : Prop :=
  V.isBroken x = true ∧ V.diagnostics x ≠ []

instance {α : Type} (V : Verifier α) (x : α) : Decidable (WellFormed V x) :=
  inferInstanceAs (Decidable (V.isBroken x = false ∧ V.diagnostics x = []))

instance {α : Type} (V : Verifier α) (x : α) : Decidable (Malformed V x) :=
  inferInstanceAs (Decidable (V.isBroken x = true ∧ V.diagnostics x ≠ []))

/-! ## The alias-query bindings -/

/-- Modelled from the spec: the declaration of `llvm::AliasResult` is not among
the sources (only its uses are); the spec lists the verdicts as NoAlias,
MayAlias, MustAlias and PartialAlias. -/
inductive AliasResult where
  | NoAlias
  | MayAlias
  | PartialAlias
  | MustAlias
  deriving DecidableEq, Repr

/-- Modelled from the spec: the declaration of the C enum `LLVMAliasResult` is
not among the sources (only its uses are). It is given one value per verdict
of the spec, so that a surfaced PartialAlias would be expressible. -/
inductive LLVMAliasResult where
  | LLVMNoAlias
  | LLVMMayAlias
  | LLVMPartialAlias
  | LLVMMustAlias
  deriving DecidableEq, Repr

open LLVMAliasResult

/-- Modelled from the spec: the IR library behind the handles (the accessors of
a module, the analyses built over a function, the two alias strategies and the
aggregator `AAResults::alias`) is not among the sources. The spec treats each
as an opaque external collaborator and leaves the decisions of the strategies
open, so each is a field here.
* `getFunction M name` is `M->getFunction(name)`: `none` is the null pointer;
* `mkTargetLibraryInfo` stands for `TargetLibraryInfoImpl TLII(Trip);
  TargetLibraryInfo TLI(TLII)`;
* `BasicAAResult` and `TypeBasedAAResult` are the two alias strategies, seen
  through their verdict on a pair of values;
* `aliasOf TLI AAs V1 V2` is `AA.alias(V1, V2)` for an `AAResults` built over
  `TLI` whose registered strategies are `AAs`, in registration order;
* `printDiagnostic ProgName` is the text `SMDiagnostic::print(ProgName, OS)`
  writes for a default-constructed diagnostic. -/
structure IRBoundary where
  Module : Type
  Function : Type
  Value : Type
  Triple : Type
  TargetLibraryInfo : Type
  DataLayout : Type
  DominatorTree : Type
  LoopInfo : Type
  AssumptionCache : Type
  getFunction : Module → String → Option Function
  getTargetTriple : Module → String
  getDataLayout : Module → DataLayout
  mkTriple : String → Triple
  mkTargetLibraryInfo : Triple → TargetLibraryInfo
  mkDominatorTree : Function → DominatorTree
  mkLoopInfo : DominatorTree → LoopInfo
  mkAssumptionCache : Function → AssumptionCache
  BasicAAResult : DataLayout → Function → TargetLibraryInfo → AssumptionCache →
    DominatorTree → Value → Value → AliasResult
  TypeBasedAAResult : Value → Value → AliasResult
  aliasOf : TargetLibraryInfo → List (Value → Value → AliasResult) →
    Value → Value → AliasResult
  printDiagnostic : String → Text

/-- The aggregator object `AAResults AA(TLI)`: the library info it was built
over and the strategies registered so far. -/
structure AAResults (B : IRBoundary) where
  TLI : B.TargetLibraryInfo
  AAs : List (B.Value → B.Value → AliasResult)

/-- `AA.addAAResult(R)`: registers `R` after the strategies already there. -/
def AAResults.addAAResult {B : IRBoundary} (AA : AAResults B)
    (R : B.Value → B.Value → AliasResult) : AAResults B :=
  { AA with AAs := AA.AAs ++ [R] }

/-- The `if`/`else if` chain that ends both alias bindings. -/
def toLLVMAliasResult (aares : AliasResult) : LLVMAliasResult :=
  if aares = AliasResult.NoAlias then LLVMNoAlias
  else if aares = AliasResult.MayAlias then LLVMMayAlias
  else if aares = AliasResult.MustAlias then LLVMMustAlias
  else LLVMMayAlias

/-- `LLVMBasicAAQuery(ModuleRef, FuncNameStr, VRef1, VRef2)`. `ModuleRef` is
`none` for a null handle. -/
def LLVMBasicAAQuery (B : IRBoundary) (ModuleRef : Option B.Module)
    (FuncNameStr : String) (VRef1 VRef2 : B.Value) (errs0 : Text) :
    Outcome LLVMAliasResult :=
  match ModuleRef with
  | none =>
    -- `Err.print(...)`, then `M->getFunction` on the null module
    Outcome.nullDeref (errs0 ++ B.printDiagnostic "LLVMBasicAAQuery failed")
  | some M =>
    let Func := B.getFunction M FuncNameStr
    -- Initialize the alias analysis.
    let Trip := B.mkTriple (B.getTargetTriple M)
    let TLI := B.mkTargetLibraryInfo Trip
    let AA : AAResults B := { TLI := TLI, AAs := [] }
    let DL := B.getDataLayout M
    match Func with
    | none =>
      -- `DominatorTree DT(*Func)` on the null function
      Outcome.nullDeref errs0
    | some F =>
      let DT := B.mkDominatorTree F
      let _LI := B.mkLoopInfo DT
      let AC := B.mkAssumptionCache F
      let BAA := B.BasicAAResult DL F TLI AC DT
      let AA := AA.addAAResult BAA
      let aares := B.aliasOf AA.TLI AA.AAs VRef1 VRef2
      Outcome.returned (toLLVMAliasResult aares) errs0

/-- `LLVMTypeBasedAAQuery(ModuleRef, VRef1, VRef2)`. `ModuleRef` is `none` for a
null handle. -/
def LLVMTypeBasedAAQuery (B : IRBoundary) (ModuleRef : Option B.Module)
    (VRef1 VRef2 : B.Value) (errs0 : Text) : Outcome LLVMAliasResult :=
  match ModuleRef with
  | none =>
    -- `Err.print(...)`, then `M->getTargetTriple` on the null module
    Outcome.nullDeref (errs0 ++ B.printDiagnostic "LLVMTypeBasedAAQuery failed")
  | some M =>
    -- Initialize the alias analysis.
    let Trip := B.mkTriple (B.getTargetTriple M)
    let TLI := B.mkTargetLibraryInfo Trip
    let AA : AAResults B := { TLI := TLI, AAs := [] }
    let TBAAR := B.TypeBasedAAResult
    let AA := AA.addAAResult TBAAR
    let aares := B.aliasOf AA.TLI AA.AAs VRef1 VRef2
    Outcome.returned (toLLVMAliasResult aares) errs0

/-- The collapse of verdicts as the spec words it: NoAlias, MayAlias and
MustAlias are surfaced as themselves, PartialAlias is surfaced as MayAlias. -/
def specCollapse : AliasResult → LLVMAliasResult
  | AliasResult.NoAlias => LLVMNoAlias
  | AliasResult.MayAlias => LLVMMayAlias
  | AliasResult.MustAlias => LLVMMustAlias
  | AliasResult.PartialAlias => LLVMMayAlias

/-! ## Sample collaborators, used to evaluate the bindings on concrete inputs -/

/-- A sample validator over module names: `"ok"` is well-formed, `"nul"` is
broken with a diagnostic that holds a NUL byte, anything else is broken with
the diagnostic `bad`. -/
def sampleVerifier : Verifier String where
  isBroken := fun m => m != "ok"
  diagnostics := fun m =>
    if m = "ok" then [] else if m = "nul" then ['a', NUL, 'b'] else ['b', 'a', 'd']

/-- Values of the sample IR: the undefined value, a whole object, or a field
of an object at an offset. -/
inductive SampleValue where
  | undef
  | object (id : Nat)
  | field (id : Nat) (offset : Nat)
  deriving DecidableEq, Repr

/-- A sample layout strategy: an undefined value aliases nothing, the same
location is MustAlias, an object and one of its fields are PartialAlias, two
fields of one object at different offsets are MayAlias, different objects are
NoAlias. -/
def sampleBasicAA : SampleValue → SampleValue → AliasResult
  | SampleValue.undef, _ => AliasResult.NoAlias
  | _, SampleValue.undef => AliasResult.NoAlias
  | SampleValue.object a, SampleValue.object b =>
    if a = b then AliasResult.MustAlias else AliasResult.NoAlias
  | SampleValue.object a, SampleValue.field b _ =>
    if a = b then AliasResult.PartialAlias else AliasResult.NoAlias
  | SampleValue.field a _, SampleValue.object b =>
    if a = b then AliasResult.PartialAlias else AliasResult.NoAlias
  | SampleValue.field a i, SampleValue.field b j =>
    if a = b then (if i = j then AliasResult.MustAlias else AliasResult.MayAlias)
    else AliasResult.NoAlias

/-- A sample aggregator: the verdict of the first registered strategy that
answers something other than MayAlias, and MayAlias when there is none. -/
def sampleAlias {V : Type} : List (V → V → AliasResult) → V → V → AliasResult
  | [], _, _ => AliasResult.MayAlias
  | R :: rest, V1, V2 =>
    if R V1 V2 = AliasResult.MayAlias then sampleAlias rest V1 V2 else R V1 V2

/-- A sample IR: a module is the list of the names of its functions, a function
is its name, the analyses carry no data. -/
def sampleIR : IRBoundary where
  Module := List String
  Function := String
  Value := SampleValue
  Triple := String
  TargetLibraryInfo := Unit
  DataLayout := Unit
  DominatorTree := Unit
  LoopInfo := Unit
  AssumptionCache := Unit
  getFunction := fun M name => if name ∈ M then some name else none
  getTargetTriple := fun _ => "x86_64-unknown-linux-gnu"
  getDataLayout := fun _ => ()
  mkTriple := fun s => s
  mkTargetLibraryInfo := fun _ => ()
  mkDominatorTree := fun _ => ()
  mkLoopInfo := fun _ => ()
  mkAssumptionCache := fun _ => ()
  BasicAAResult := fun _ _ _ _ _ => sampleBasicAA
  TypeBasedAAResult := fun _ _ => AliasResult.MayAlias
  aliasOf := fun _ AAs V1 V2 => sampleAlias AAs V1 V2
  printDiagnostic := fun ProgName => ProgName.toList ++ ": error: \n".toList

/-! ## Helper lemmas -/

/-- A string without a NUL byte is copied whole. -/
theorem strdup_c_str_of_no_NUL (S : Text) (h : NUL ∉ S) : strdup_c_str S = S := by
  unfold strdup_c_str
  induction S with
  | nil => rfl
  | cons c cs ih =>
    have hc : c ≠ NUL := fun e => h (by simp [e])
    have hcs : NUL ∉ cs := fun m => h (List.mem_cons_of_mem c m)
    simp [List.takeWhile_cons, hc, ih hcs]

/-- The copy of a string is a prefix of it, and holds no NUL byte. -/
theorem strdup_c_str_prefix (S : Text) :
    strdup_c_str S <+: S ∧ NUL ∉ strdup_c_str S := by
  unfold strdup_c_str
  refine ⟨List.takeWhile_prefix _, fun m => ?_⟩
  have := List.mem_takeWhile_imp m
  simp at this

/-- The outcome of `LLVMVerifyModule` in closed form. -/
theorem LLVMVerifyModule_eq {Module : Type} (V : Verifier Module) (M : Module)
    (Action : LLVMVerifierFailureAction) (OutMessages : Bool) (errs0 : Text) :
    LLVMVerifyModule V M Action OutMessages errs0 =
      if Action = LLVMAbortProcessAction ∧ V.isBroken M = true then
        Outcome.fatal "Broken module found, compilation aborted!"
          (errs0 ++ V.diagnostics M)
      else
        Outcome.returned
          (V.isBroken M,
            if OutMessages then some (strdup_c_str (V.diagnostics M)) else none)
          (if Action = LLVMReturnStatusAction then errs0 else errs0 ++ V.diagnostics M) := by
  cases Action <;> cases OutMessages <;> cases h : V.isBroken M <;>
    simp [LLVMVerifyModule, runVerifier, Streams.write, h]


/-- The outcome of `LLVMVerifyFunction` in closed form. -/
theorem LLVMVerifyFunction_eq {Function : Type} (V : Verifier Function) (Fn : Function)
    (Action : LLVMVerifierFailureAction) (errs0 : Text) :
    LLVMVerifyFunction V Fn Action errs0 =
      if Action = LLVMAbortProcessAction ∧ V.isBroken Fn = true then
        Outcome.fatal "Broken function found, compilation aborted!"
          (errs0 ++ V.diagnostics Fn)
      else
        Outcome.returned (V.isBroken Fn)
          (if Action = LLVMReturnStatusAction then errs0 else errs0 ++ V.diagnostics Fn) := by
  cases Action <;> cases h : V.isBroken Fn <;>
    simp [LLVMVerifyFunction, runVerifier, Streams.write, h]

/-- The closing chain of the alias bindings agrees with the collapse of the spec. -/
theorem toLLVMAliasResult_eq_specCollapse (aares : AliasResult) :
    toLLVMAliasResult aares = specCollapse aares := by
  cases aares <;> rfl

/-- The outcome of `LLVMBasicAAQuery` for a name that resolves. -/
theorem LLVMBasicAAQuery_resolved (B : IRBoundary) (M : B.Module) (name : String)
    (F : B.Function) (V1 V2 : B.Value) (errs0 : Text)
    (hF : B.getFunction M name = some F) :
    LLVMBasicAAQuery B (some M) name V1 V2 errs0 =
      Outcome.returned
        (toLLVMAliasResult
          (B.aliasOf (B.mkTargetLibraryInfo (B.mkTriple (B.getTargetTriple M)))
            [B.BasicAAResult (B.getDataLayout M) F
              (B.mkTargetLibraryInfo (B.mkTriple (B.getTargetTriple M)))
              (B.mkAssumptionCache F) (B.mkDominatorTree F)] V1 V2))
        errs0 := by
  simp [LLVMBasicAAQuery, hF, AAResults.addAAResult]

/-! ## The claims -/

/-- C2: on a well-formed module, under each of the three actions and whether or
not a message buffer is requested, `LLVMVerifyModule` returns false, hands over
the empty text when a buffer was requested, and leaves the error stream as it
was. -/
theorem verifyModule_wellFormed {Module : Type} (V : Verifier Module) (M : Module)
    (Action : LLVMVerifierFailureAction) (OutMessages : Bool) (errs0 : Text)
    (h : WellFormed V M) :
    LLVMVerifyModule V M Action OutMessages errs0 =
      Outcome.returned (false, if OutMessages then some [] else none) errs0 := by
  obtain ⟨hb, hd⟩ := h
  rw [LLVMVerifyModule_eq]
  cases Action <;> simp [hb, hd, strdup_c_str]

/-- C2, witness: the sample module `ok` under the abort action, buffer requested. -/
theorem verifyModule_wellFormed_witness :
    WellFormed sampleVerifier "ok" ∧
    LLVMVerifyModule sampleVerifier "ok" LLVMAbortProcessAction true ['e'] =
      Outcome.returned (false, if true then some [] else none) ['e'] :=
  ⟨by decide,
    verifyModule_wellFormed sampleVerifier "ok" LLVMAbortProcessAction true ['e']
      (by decide)⟩

/-- C3, as the code has it: on a malformed module, with the return-status
action and a requested buffer, `LLVMVerifyModule` returns true, leaves the error
stream as it was, and hands over the validator's text cut at its first NUL
byte; that is the whole, non-empty text when the text holds no NUL byte. -/
theorem verifyModule_signalOnly_malformed {Module : Type} (V : Verifier Module)
    (M : Module) (errs0 : Text) (h : Malformed V M) :
    LLVMVerifyModule V M LLVMReturnStatusAction true errs0 =
      Outcome.returned (true, some (strdup_c_str (V.diagnostics M))) errs0 ∧
    (NUL ∉ V.diagnostics M →
      strdup_c_str (V.diagnostics M) = V.diagnostics M ∧
      strdup_c_str (V.diagnostics M) ≠ []) := by
  obtain ⟨hb, hd⟩ := h
  refine ⟨?_, fun hn => ?_⟩
  · rw [LLVMVerifyModule_eq]
    simp [hb]
  · rw [strdup_c_str_of_no_NUL _ hn]
    exact ⟨rfl, hd⟩

/-- C3, witness: the sample module `x`, whose diagnostic is `bad`. -/
theorem verifyModule_signalOnly_malformed_witness :
    Malformed sampleVerifier "x" ∧ NUL ∉ sampleVerifier.diagnostics "x" ∧
    LLVMVerifyModule sampleVerifier "x" LLVMReturnStatusAction true ['e'] =
      Outcome.returned (true, some (strdup_c_str (sampleVerifier.diagnostics "x"))) ['e'] ∧
    strdup_c_str (sampleVerifier.diagnostics "x") = sampleVerifier.diagnostics "x" ∧
    strdup_c_str (sampleVerifier.diagnostics "x") ≠ [] :=
  ⟨by decide, by decide,
    (verifyModule_signalOnly_malformed sampleVerifier "x" ['e'] (by decide)).1,
    (verifyModule_signalOnly_malformed sampleVerifier "x" ['e'] (by decide)).2 (by decide)⟩

/-- C3, counterexample: the sample module `nul` is malformed, its diagnostic
holds a NUL byte, and the buffer handed over is not the validator's text. -/
theorem verifyModule_signalOnly_truncates_at_NUL :
    Malformed sampleVerifier "nul" ∧
    LLVMVerifyModule sampleVerifier "nul" LLVMReturnStatusAction true [] =
      Outcome.returned (true, some ['a']) [] ∧
    sampleVerifier.diagnostics "nul" = ['a', NUL, 'b'] ∧
    LLVMVerifyModule sampleVerifier "nul" LLVMReturnStatusAction true [] ≠
      Outcome.returned (true, some (sampleVerifier.diagnostics "nul")) [] := by
  decide

/-- C4, as the code has it: on a malformed module, with the print-message action
and a requested buffer, `LLVMVerifyModule` returns true, appends the validator's
whole text to the error stream, and hands over that text cut at its first NUL
byte; buffer and appended text are equal when the text holds no NUL byte. -/
theorem verifyModule_printAndSignal_malformed {Module : Type} (V : Verifier Module)
    (M : Module) (errs0 : Text) (h : Malformed V M) :
    LLVMVerifyModule V M LLVMPrintMessageAction true errs0 =
      Outcome.returned (true, some (strdup_c_str (V.diagnostics M)))
        (errs0 ++ V.diagnostics M) ∧
    (NUL ∉ V.diagnostics M → strdup_c_str (V.diagnostics M) = V.diagnostics M) := by
  obtain ⟨hb, _⟩ := h
  refine ⟨?_, strdup_c_str_of_no_NUL _⟩
  rw [LLVMVerifyModule_eq]
  simp [hb]

/-- C4, witness: the sample module `x`, whose diagnostic is `bad`. -/
theorem verifyModule_printAndSignal_malformed_witness :
    Malformed sampleVerifier "x" ∧ NUL ∉ sampleVerifier.diagnostics "x" ∧
    LLVMVerifyModule sampleVerifier "x" LLVMPrintMessageAction true ['e'] =
      Outcome.returned (true, some (strdup_c_str (sampleVerifier.diagnostics "x")))
        (['e'] ++ sampleVerifier.diagnostics "x") ∧
    strdup_c_str (sampleVerifier.diagnostics "x") = sampleVerifier.diagnostics "x" :=
  ⟨by decide, by decide,
    (verifyModule_printAndSignal_malformed sampleVerifier "x" ['e'] (by decide)).1,
    (verifyModule_printAndSignal_malformed sampleVerifier "x" ['e'] (by decide)).2
      (by decide)⟩

/-- C4, counterexample: on the sample module `nul` the buffer holds `a` while
the call appended `a`, NUL, `b` to the error stream. -/
theorem verifyModule_printAndSignal_buffer_differs :
    Malformed sampleVerifier "nul" ∧
    LLVMVerifyModule sampleVerifier "nul" LLVMPrintMessageAction true [] =
      Outcome.returned (true, some ['a']) ([] ++ ['a', NUL, 'b']) ∧
    ['a'] ≠ ['a', NUL, 'b'] := by
  decide

/-- C5: on a malformed module, with the abort action, `LLVMVerifyModule` does
not return: it ends in `report_fatal_error`, with the validator's text appended
to the error stream, whether or not a buffer was requested. -/
theorem verifyModule_abort_malformed {Module : Type} (V : Verifier Module)
    (M : Module) (OutMessages : Bool) (errs0 : Text) (h : Malformed V M) :
    LLVMVerifyModule V M LLVMAbortProcessAction OutMessages errs0 =
      Outcome.fatal "Broken module found, compilation aborted!"
        (errs0 ++ V.diagnostics M) ∧
    (LLVMVerifyModule V M LLVMAbortProcessAction OutMessages errs0).value? = none := by
  obtain ⟨hb, _⟩ := h
  rw [LLVMVerifyModule_eq]
  simp [hb, Outcome.value?]

/-- C5, witness: the sample module `x` without a buffer. -/
theorem verifyModule_abort_malformed_witness :
    Malformed sampleVerifier "x" ∧
    LLVMVerifyModule sampleVerifier "x" LLVMAbortProcessAction false ['e'] =
      Outcome.fatal "Broken module found, compilation aborted!"
        (['e'] ++ sampleVerifier.diagnostics "x") ∧
    (LLVMVerifyModule sampleVerifier "x" LLVMAbortProcessAction false ['e']).value? = none :=
  ⟨by decide,
    verifyModule_abort_malformed sampleVerifier "x" false ['e'] (by decide)⟩

/-- C6, as the code has it: with an action other than return-status and a
requested buffer, the validator's whole text is appended to the error stream;
when the call returns (print-message, or abort on a module the validator does
not flag) the buffer holds that text cut at its first NUL byte, which is the
same text when it holds no NUL byte; under abort on a flagged module the call
ends in `report_fatal_error` and hands over no buffer. -/
theorem verifyModule_duplication {Module : Type} (V : Verifier Module) (M : Module)
    (Action : LLVMVerifierFailureAction) (errs0 : Text)
    (hA : Action ≠ LLVMReturnStatusAction) :
    (LLVMVerifyModule V M Action true errs0).stream = errs0 ++ V.diagnostics M ∧
    LLVMVerifyModule V M Action true errs0 =
      (if Action = LLVMAbortProcessAction ∧ V.isBroken M = true then
        Outcome.fatal "Broken module found, compilation aborted!"
          (errs0 ++ V.diagnostics M)
      else
        Outcome.returned (V.isBroken M, some (strdup_c_str (V.diagnostics M)))
          (errs0 ++ V.diagnostics M)) ∧
    (NUL ∉ V.diagnostics M → strdup_c_str (V.diagnostics M) = V.diagnostics M) := by
  refine ⟨?_, ?_, strdup_c_str_of_no_NUL _⟩
  · rw [LLVMVerifyModule_eq]
    cases Action <;> cases hb : V.isBroken M <;> simp_all [Outcome.stream]
  · rw [LLVMVerifyModule_eq]
    cases Action <;> cases hb : V.isBroken M <;> simp_all

/-- C6, witness: the sample module `x` under the print-message action. -/
theorem verifyModule_duplication_witness :
    LLVMPrintMessageAction ≠ LLVMReturnStatusAction ∧
    NUL ∉ sampleVerifier.diagnostics "x" ∧
    (LLVMVerifyModule sampleVerifier "x" LLVMPrintMessageAction true ['e']).stream =
      ['e'] ++ sampleVerifier.diagnostics "x" ∧
    LLVMVerifyModule sampleVerifier "x" LLVMPrintMessageAction true ['e'] =
      (if LLVMPrintMessageAction = LLVMAbortProcessAction ∧
          sampleVerifier.isBroken "x" = true then
        Outcome.fatal "Broken module found, compilation aborted!"
          (['e'] ++ sampleVerifier.diagnostics "x")
      else
        Outcome.returned
          (sampleVerifier.isBroken "x", some (strdup_c_str (sampleVerifier.diagnostics "x")))
          (['e'] ++ sampleVerifier.diagnostics "x")) ∧
    strdup_c_str (sampleVerifier.diagnostics "x") = sampleVerifier.diagnostics "x" :=
  ⟨by decide, by decide,
    (verifyModule_duplication sampleVerifier "x" LLVMPrintMessageAction ['e']
      (by decide)).1,
    (verifyModule_duplication sampleVerifier "x" LLVMPrintMessageAction ['e']
      (by decide)).2.1,
    (verifyModule_duplication sampleVerifier "x" LLVMPrintMessageAction ['e']
      (by decide)).2.2 (by decide)⟩

/-- C6, counterexample: under the abort action with a requested buffer, the
sample module `x` (diagnostic `bad`, no NUL byte) has its text on the error
stream while the call ends in `report_fatal_error` and hands over no buffer. -/
theorem verifyModule_abort_hands_over_no_buffer :
    LLVMAbortProcessAction ≠ LLVMReturnStatusAction ∧
    LLVMVerifyModule sampleVerifier "x" LLVMAbortProcessAction true [] =
      Outcome.fatal "Broken module found, compilation aborted!" ['b', 'a', 'd'] ∧
    ¬ (∃ r t errs, LLVMVerifyModule sampleVerifier "x" LLVMAbortProcessAction true [] =
        Outcome.returned (r, some t) errs) := by
  refine ⟨by decide, by decide, ?_⟩
  rintro ⟨r, t, errs, h⟩
  have h2 : LLVMVerifyModule sampleVerifier "x" LLVMAbortProcessAction true [] =
      Outcome.fatal "Broken module found, compilation aborted!" ['b', 'a', 'd'] := by decide
  rw [h2] at h
  cases h

/-- C7: for every pair of values, equal or not, `LLVMBasicAAQuery` on a name
that resolves and `LLVMTypeBasedAAQuery` each hand the aggregator exactly one
strategy and return its verdict for the pair collapsed as the spec words it
(NoAlias, MayAlias and MustAlias as themselves, PartialAlias as MayAlias);
neither ever returns PartialAlias. -/
theorem alias_queries_collapse (B : IRBoundary) (M : B.Module) (name : String)
    (V1 V2 : B.Value) (errs0 : Text) :
    (∀ F, B.getFunction M name = some F →
      LLVMBasicAAQuery B (some M) name V1 V2 errs0 =
        Outcome.returned
          (specCollapse
            (B.aliasOf (B.mkTargetLibraryInfo (B.mkTriple (B.getTargetTriple M)))
              [B.BasicAAResult (B.getDataLayout M) F
                (B.mkTargetLibraryInfo (B.mkTriple (B.getTargetTriple M)))
                (B.mkAssumptionCache F) (B.mkDominatorTree F)] V1 V2))
          errs0) ∧
    LLVMTypeBasedAAQuery B (some M) V1 V2 errs0 =
      Outcome.returned
        (specCollapse
          (B.aliasOf (B.mkTargetLibraryInfo (B.mkTriple (B.getTargetTriple M)))
            [B.TypeBasedAAResult] V1 V2))
        errs0 ∧
    (LLVMBasicAAQuery B (some M) name V1 V2 errs0).value? ≠ some LLVMPartialAlias ∧
    (LLVMTypeBasedAAQuery B (some M) V1 V2 errs0).value? ≠ some LLVMPartialAlias := by
  have hT : LLVMTypeBasedAAQuery B (some M) V1 V2 errs0 =
      Outcome.returned
        (specCollapse
          (B.aliasOf (B.mkTargetLibraryInfo (B.mkTriple (B.getTargetTriple M)))
            [B.TypeBasedAAResult] V1 V2))
        errs0 := by
    simp [LLVMTypeBasedAAQuery, AAResults.addAAResult, toLLVMAliasResult_eq_specCollapse]
  refine ⟨fun F hF => ?_, hT, ?_, ?_⟩
  · rw [LLVMBasicAAQuery_resolved B M name F V1 V2 errs0 hF,
      toLLVMAliasResult_eq_specCollapse]
  · cases hF : B.getFunction M name with
    | none => simp [LLVMBasicAAQuery, hF, Outcome.value?]
    | some F =>
      rw [LLVMBasicAAQuery_resolved B M name F V1 V2 errs0 hF]
      generalize B.aliasOf _ _ V1 V2 = a
      cases a <;> simp [Outcome.value?, toLLVMAliasResult]
  · rw [hT]
    generalize B.aliasOf _ _ V1 V2 = a
    cases a <;> simp [Outcome.value?, specCollapse]

/-- C7, witness: in the sample IR an object and one of its fields are
PartialAlias for the layout strategy, and the query answers MayAlias; an object
against itself is answered by the strategy as well (MustAlias). -/
theorem alias_queries_collapse_witness :
    sampleIR.getFunction ["f"] "f" = some "f" ∧
    LLVMBasicAAQuery sampleIR (some ["f"]) "f" (SampleValue.object 1)
        (SampleValue.field 1 4) [] =
      Outcome.returned (specCollapse AliasResult.PartialAlias) [] ∧
    LLVMTypeBasedAAQuery sampleIR (some ["f"]) (SampleValue.object 1)
        (SampleValue.field 1 4) [] =
      Outcome.returned (specCollapse AliasResult.MayAlias) [] ∧
    LLVMBasicAAQuery sampleIR (some ["f"]) "f" (SampleValue.object 1)
        (SampleValue.object 1) [] =
      Outcome.returned (specCollapse AliasResult.MustAlias) [] :=
  ⟨rfl,
    (alias_queries_collapse sampleIR ["f"] "f" (SampleValue.object 1)
      (SampleValue.field 1 4) []).1 "f" rfl,
    (alias_queries_collapse sampleIR ["f"] "f" (SampleValue.object 1)
      (SampleValue.field 1 4) []).2.1,
    (alias_queries_collapse sampleIR ["f"] "f" (SampleValue.object 1)
      (SampleValue.object 1) []).1 "f" rfl⟩

/-- C9: `LLVMVerifyFunction` with the return-status action returns the
validator's flag and leaves the error stream as it was; with the print-message
action it appends the validator's diagnostics to the error stream and returns
the flag; with the abort action it appends the diagnostics and ends in
`report_fatal_error` exactly when the function is broken, returning false
otherwise. -/
theorem verifyFunction_actions {Function : Type} (V : Verifier Function)
    (Fn : Function) (errs0 : Text) :
    LLVMVerifyFunction V Fn LLVMReturnStatusAction errs0 =
      Outcome.returned (V.isBroken Fn) errs0 ∧
    LLVMVerifyFunction V Fn LLVMPrintMessageAction errs0 =
      Outcome.returned (V.isBroken Fn) (errs0 ++ V.diagnostics Fn) ∧
    LLVMVerifyFunction V Fn LLVMAbortProcessAction errs0 =
      (if V.isBroken Fn = true then
        Outcome.fatal "Broken function found, compilation aborted!"
          (errs0 ++ V.diagnostics Fn)
      else Outcome.returned false (errs0 ++ V.diagnostics Fn)) ∧
    (LLVMVerifyFunction V Fn LLVMAbortProcessAction errs0).terminated = V.isBroken Fn := by
  simp only [LLVMVerifyFunction_eq]
  cases hb : V.isBroken Fn <;> simp [Outcome.terminated]

/-- C10: for every module and action, the run of `LLVMVerifyModule` without a
message buffer and the run with one leave the same error stream, agree on
whether the process is terminated, and agree on the returned flag, which is the
validator's flag whenever the call returns. -/
theorem verifyModule_buffer_independent {Module : Type} (V : Verifier Module)
    (M : Module) (Action : LLVMVerifierFailureAction) (errs0 : Text) :
    (LLVMVerifyModule V M Action false errs0).stream =
      (LLVMVerifyModule V M Action true errs0).stream ∧
    (LLVMVerifyModule V M Action false errs0).terminated =
      (LLVMVerifyModule V M Action true errs0).terminated ∧
    (LLVMVerifyModule V M Action false errs0).value?.map Prod.fst =
      (LLVMVerifyModule V M Action true errs0).value?.map Prod.fst ∧
    (LLVMVerifyModule V M Action true errs0).value?.map Prod.fst =
      (if Action = LLVMAbortProcessAction ∧ V.isBroken M = true then none
       else some (V.isBroken M)) ∧
    (LLVMVerifyModule V M Action true errs0).stream =
      (if Action = LLVMReturnStatusAction then errs0 else errs0 ++ V.diagnostics M) := by
  simp only [LLVMVerifyModule_eq]
  cases Action <;> cases hb : V.isBroken M <;>
    simp [Outcome.stream, Outcome.terminated, Outcome.value?]

end LLVMAnalysis
